import Mathlib

/-!
# Verification of the three-way-match reconciliation engine

Shallow embedding of `perform_three_way_match` and its data model from
`backend/server.py` of the invoice-mngt repository.  Python floats are
modelled as exact rationals (`ℚ`); Python `str` as `String`; optional
fields as `Option`.  The nondeterministic fields of the result (the
freshly generated uuid and the two timestamps) are modelled as fixed
placeholder strings, since no property below depends on them.
-/

/-- `LineItem` pydantic model (server.py lines 33-37). -/
structure LineItem where
  description : String
  quantity : ℚ
  unit_price : ℚ
  amount : ℚ
  deriving Repr, DecidableEq

/-- `Invoice` pydantic model (server.py lines 39-47). -/
structure Invoice where
  id : Option String := none
  invoice_number : String
  vendor_name : String
  invoice_date : String
  total_amount : ℚ
  line_items : List LineItem
  status : Option String := some "pending"
  created_at : Option String := none
  deriving Repr, DecidableEq

/-- `PurchaseOrder` pydantic model (server.py lines 49-57). -/
structure PurchaseOrder where
  id : Option String := none
  po_number : String
  vendor_name : String
  po_date : String
  total_amount : ℚ
  line_items : List LineItem
  status : Option String := some "open"
  created_at : Option String := none
  deriving Repr, DecidableEq

/-- `GoodsReceipt` pydantic model (server.py lines 59-66). -/
structure GoodsReceipt where
  id : Option String := none
  gr_number : String
  po_number : String
  vendor_name : String
  receipt_date : String
  line_items : List LineItem
  created_at : Option String := none
  deriving Repr, DecidableEq

/-- One entry of `line_item_matches`: the dict appended at server.py
lines 172-184, given a fixed record type. -/
structure MatchRecord where
  description : String
  invoice_qty : ℚ
  invoice_price : ℚ
  invoice_amount : ℚ
  po_qty : ℚ
  po_price : ℚ
  gr_qty : ℚ
  price_variance_pct : ℚ
  quantity_variance_pct : ℚ
  amount_variance : ℚ
  status : String
  deriving Repr, DecidableEq

/-- `VerificationResult` pydantic model (server.py lines 68-79). -/
structure VerificationResult where
  id : Option String := none
  invoice_id : Option String
  po_id : Option String
  gr_id : Option String
  verification_date : String
  overall_status : String
  line_item_matches : List MatchRecord
  total_variance : ℚ
  price_variance : ℚ
  quantity_variance : ℚ
  created_at : Option String := none
  deriving Repr, DecidableEq

/-- The 5% tolerance constant (server.py line 131). -/
def tolerance : ℚ := 0.05

/-- Python's `str.lower()`: lowercase every character of the string.
(`String.toLower` is semantically the same map over the characters; this
structural form is used so that concrete instances evaluate.) -/
def pyLower (s : String) : String := ⟨s.data.map Char.toLower⟩

/-- The `for ... if ... break` search loops of server.py lines 139-147:
first line item whose lowercased description equals the lowercased
target description, or `none`. -/
def findMatch (descr : String) : List LineItem → Option LineItem
  | [] => none
  | item :: rest =>
      if pyLower item.description = pyLower descr then some item
      else findMatch descr rest

/-- The inline escalation expression
`"warning" if overall_status == "pass" else "fail"`
(server.py lines 162 and 166). -/
def escalateStatus (s : String) : String :=
  if s = "pass" then "warning" else "fail"

/-- `price_diff` computation for a matched line (server.py line 156). -/
def price_diff_calc (inv_price po_price : ℚ) : ℚ :=
  if po_price > 0 then |inv_price - po_price| / po_price else 0

/-- `qty_diff` computation for a matched line (server.py line 157). -/
def qty_diff_calc (inv_qty gr_qty : ℚ) : ℚ :=
  if gr_qty > 0 then |inv_qty - gr_qty| / gr_qty else 0

/-- The running state of the loop at server.py lines 134-188: the
accumulated match records, the three running sums, and the escalating
overall status. -/
structure MatchState where
  line_matches : List MatchRecord
  total_variance : ℚ
  price_variance : ℚ
  quantity_variance : ℚ
  overall_status : String
  deriving Repr, DecidableEq

/-- One iteration of the `for inv_item in invoice.line_items` loop
(server.py lines 134-188).  In the matched branch the two `if` blocks
at lines 160-166 are rendered as sequential updates of the line status
and of the overall status; in the unmatched branch the Python record
fields `po_match.quantity if po_match else 0` etc. are kept, since
exactly one of the two matches may still be present there. -/
def processLine (po_items gr_items : List LineItem) (st : MatchState)
    (inv_item : LineItem) : MatchState :=
  let po_match := findMatch inv_item.description po_items
  let gr_match := findMatch inv_item.description gr_items
  match po_match, gr_match with
  | some pm, some gm =>
      let price_diff := price_diff_calc inv_item.unit_price pm.unit_price
      let qty_diff := qty_diff_calc inv_item.quantity gm.quantity
      let amount_diff := |inv_item.amount - pm.unit_price * gm.quantity|
      let match_status := "pass"
      let match_status1 := if price_diff > tolerance then "price_variance" else match_status
      let overall1 := if price_diff > tolerance then escalateStatus st.overall_status
        else st.overall_status
      let match_status2 := if qty_diff > tolerance then "quantity_variance" else match_status1
      let overall2 := if qty_diff > tolerance then escalateStatus overall1 else overall1
      { line_matches := st.line_matches ++ [{
          description := inv_item.description
          invoice_qty := inv_item.quantity
          invoice_price := inv_item.unit_price
          invoice_amount := inv_item.amount
          po_qty := pm.quantity
          po_price := pm.unit_price
          gr_qty := gm.quantity
          price_variance_pct := price_diff * 100
          quantity_variance_pct := qty_diff * 100
          amount_variance := amount_diff
          status := match_status2 }]
        total_variance := st.total_variance + amount_diff
        price_variance := st.price_variance + price_diff
        quantity_variance := st.quantity_variance + qty_diff
        overall_status := overall2 }
  | _, _ =>
      { line_matches := st.line_matches ++ [{
          description := inv_item.description
          invoice_qty := inv_item.quantity
          invoice_price := inv_item.unit_price
          invoice_amount := inv_item.amount
          po_qty := match po_match with | some pm => pm.quantity | none => 0
          po_price := match po_match with | some pm => pm.unit_price | none => 0
          gr_qty := match gr_match with | some gm => gm.quantity | none => 0
          price_variance_pct := 0 * 100
          quantity_variance_pct := 0 * 100
          amount_variance := 0
          status := "no_match" }]
        total_variance := st.total_variance + 0
        price_variance := st.price_variance + 0
        quantity_variance := st.quantity_variance + 0
        overall_status := "fail" }

/-- The initial loop state (server.py lines 125-129). -/
def initState : MatchState :=
  { line_matches := []
    total_variance := 0
    price_variance := 0
    quantity_variance := 0
    overall_status := "pass" }

/-- `perform_three_way_match` (server.py lines 121-202).  The generated
uuid and the two `datetime.now()` timestamps are environment supplied
and modelled as placeholder strings. -/
def perform_three_way_match (invoice : Invoice) (po : PurchaseOrder)
    (gr : GoodsReceipt) : VerificationResult :=
  let final := invoice.line_items.foldl (processLine po.line_items gr.line_items) initState
  { id := some "verification-id"
    invoice_id := invoice.id
    po_id := po.id
    gr_id := gr.id
    verification_date := "now"
    overall_status := final.overall_status
    line_item_matches := final.line_matches
    total_variance := final.total_variance
    price_variance := final.price_variance
    quantity_variance := final.quantity_variance
    created_at := some "now" }

/-! ## Per-line views of the loop body

The loop body at server.py lines 134-188 updates each component of the
state independently of the others: the record appended for a line and the
three per-line variance contributions do not depend on the running state,
and the overall status is updated by a function of the previous status
alone.  The following definitions name these per-line views; the
decomposition lemma `processLine_eq` relates them to `processLine`. -/

/-- The record appended for one invoice line (server.py lines 172-184),
as a function of the line alone. -/
def lineRecord (po_items gr_items : List LineItem) (inv_item : LineItem) : MatchRecord :=
  let po_match := findMatch inv_item.description po_items
  let gr_match := findMatch inv_item.description gr_items
  match po_match, gr_match with
  | some pm, some gm =>
      let price_diff := price_diff_calc inv_item.unit_price pm.unit_price
      let qty_diff := qty_diff_calc inv_item.quantity gm.quantity
      { description := inv_item.description
        invoice_qty := inv_item.quantity
        invoice_price := inv_item.unit_price
        invoice_amount := inv_item.amount
        po_qty := pm.quantity
        po_price := pm.unit_price
        gr_qty := gm.quantity
        price_variance_pct := price_diff * 100
        quantity_variance_pct := qty_diff * 100
        amount_variance := |inv_item.amount - pm.unit_price * gm.quantity|
        status := if qty_diff > tolerance then "quantity_variance"
          else if price_diff > tolerance then "price_variance" else "pass" }
  | _, _ =>
      { description := inv_item.description
        invoice_qty := inv_item.quantity
        invoice_price := inv_item.unit_price
        invoice_amount := inv_item.amount
        po_qty := match po_match with | some pm => pm.quantity | none => 0
        po_price := match po_match with | some pm => pm.unit_price | none => 0
        gr_qty := match gr_match with | some gm => gm.quantity | none => 0
        price_variance_pct := 0 * 100
        quantity_variance_pct := 0 * 100
        amount_variance := 0
        status := "no_match" }

/-- The overall-status update performed by one loop iteration
(server.py lines 160-170), as a function of the previous status. -/
def stepStatus (po_items gr_items : List LineItem) (s : String) (inv_item : LineItem) : String :=
  match findMatch inv_item.description po_items, findMatch inv_item.description gr_items with
  | some pm, some gm =>
      let price_diff := price_diff_calc inv_item.unit_price pm.unit_price
      let qty_diff := qty_diff_calc inv_item.quantity gm.quantity
      let overall1 := if price_diff > tolerance then escalateStatus s else s
      if qty_diff > tolerance then escalateStatus overall1 else overall1
  | _, _ => "fail"

/-- The contribution of one invoice line to `total_variance`. -/
def lineAmountDiff (po_items gr_items : List LineItem) (inv_item : LineItem) : ℚ :=
  match findMatch inv_item.description po_items, findMatch inv_item.description gr_items with
  | some pm, some gm => |inv_item.amount - pm.unit_price * gm.quantity|
  | _, _ => 0

/-- The contribution of one invoice line to `price_variance`. -/
def linePriceDiff (po_items gr_items : List LineItem) (inv_item : LineItem) : ℚ :=
  match findMatch inv_item.description po_items, findMatch inv_item.description gr_items with
  | some pm, some _ => price_diff_calc inv_item.unit_price pm.unit_price
  | _, _ => 0

/-- The contribution of one invoice line to `quantity_variance`. -/
def lineQtyDiff (po_items gr_items : List LineItem) (inv_item : LineItem) : ℚ :=
  match findMatch inv_item.description po_items, findMatch inv_item.description gr_items with
  | some _, some gm => qty_diff_calc inv_item.quantity gm.quantity
  | _, _ => 0

/-- Whether an invoice line has no PO match or no GR match. -/
def isNoMatchLine (po_items gr_items : List LineItem) (inv_item : LineItem) : Bool :=
  (findMatch inv_item.description po_items).isNone ||
  (findMatch inv_item.description gr_items).isNone

/-- Whether an invoice line is a variant line: both matches exist and the
price or the quantity tolerance check trips. -/
def isVariantLine (po_items gr_items : List LineItem) (inv_item : LineItem) : Bool :=
  match findMatch inv_item.description po_items, findMatch inv_item.description gr_items with
  | some pm, some gm =>
      decide (price_diff_calc inv_item.unit_price pm.unit_price > tolerance) ||
      decide (qty_diff_calc inv_item.quantity gm.quantity > tolerance)
  | _, _ => false

/-- How many of the two tolerance checks trip for one invoice line
(each check escalates the overall status once). -/
def lineTrips (po_items gr_items : List LineItem) (inv_item : LineItem) : Nat :=
  match findMatch inv_item.description po_items, findMatch inv_item.description gr_items with
  | some pm, some gm =>
      (if price_diff_calc inv_item.unit_price pm.unit_price > tolerance then 1 else 0) +
      (if qty_diff_calc inv_item.quantity gm.quantity > tolerance then 1 else 0)
  | _, _ => 0

/-- The status reached from "pass" after `t` escalation steps. -/
def statusOfTrips (t : Nat) : String :=
  if t = 0 then "pass" else if t = 1 then "warning" else "fail"

/-- A placeholder line item, used as the default of `List.getD`. -/
def emptyItem : LineItem :=
  { description := "", quantity := 0, unit_price := 0, amount := 0 }

/-- A placeholder match record, used as the default of `List.getD`. -/
def emptyRecord : MatchRecord :=
  { description := "", invoice_qty := 0, invoice_price := 0, invoice_amount := 0
    po_qty := 0, po_price := 0, gr_qty := 0
    price_variance_pct := 0, quantity_variance_pct := 0, amount_variance := 0
    status := "" }

/-- One loop iteration decomposed into its per-line views. -/
theorem processLine_eq (po_items gr_items : List LineItem) (st : MatchState)
    (it : LineItem) :
    processLine po_items gr_items st it =
      { line_matches := st.line_matches ++ [lineRecord po_items gr_items it]
        total_variance := st.total_variance + lineAmountDiff po_items gr_items it
        price_variance := st.price_variance + linePriceDiff po_items gr_items it
        quantity_variance := st.quantity_variance + lineQtyDiff po_items gr_items it
        overall_status := stepStatus po_items gr_items st.overall_status it } := by
  unfold processLine lineRecord lineAmountDiff linePriceDiff lineQtyDiff stepStatus
  cases hpo : findMatch it.description po_items <;>
    cases hgr : findMatch it.description gr_items <;> simp

/-! ## Folding the loop -/

/-- The records accumulate as a map over the invoice lines. -/
theorem foldl_line_matches (po_items gr_items : List LineItem)
    (items : List LineItem) : ∀ st : MatchState,
    (items.foldl (processLine po_items gr_items) st).line_matches =
      st.line_matches ++ items.map (lineRecord po_items gr_items) := by
  induction items with
  | nil => intro st; simp
  | cons it rest ih =>
      intro st
      rw [List.foldl_cons, processLine_eq, ih]
      simp

/-- `total_variance` accumulates as a plain sum over the invoice lines. -/
theorem foldl_total_variance (po_items gr_items : List LineItem)
    (items : List LineItem) : ∀ st : MatchState,
    (items.foldl (processLine po_items gr_items) st).total_variance =
      st.total_variance + (items.map (lineAmountDiff po_items gr_items)).sum := by
  induction items with
  | nil => intro st; simp
  | cons it rest ih =>
      intro st
      rw [List.foldl_cons, processLine_eq, ih]
      simp [add_assoc]

/-- `price_variance` accumulates as a plain sum over the invoice lines. -/
theorem foldl_price_variance (po_items gr_items : List LineItem)
    (items : List LineItem) : ∀ st : MatchState,
    (items.foldl (processLine po_items gr_items) st).price_variance =
      st.price_variance + (items.map (linePriceDiff po_items gr_items)).sum := by
  induction items with
  | nil => intro st; simp
  | cons it rest ih =>
      intro st
      rw [List.foldl_cons, processLine_eq, ih]
      simp [add_assoc]

/-- `quantity_variance` accumulates as a plain sum over the invoice lines. -/
theorem foldl_quantity_variance (po_items gr_items : List LineItem)
    (items : List LineItem) : ∀ st : MatchState,
    (items.foldl (processLine po_items gr_items) st).quantity_variance =
      st.quantity_variance + (items.map (lineQtyDiff po_items gr_items)).sum := by
  induction items with
  | nil => intro st; simp
  | cons it rest ih =>
      intro st
      rw [List.foldl_cons, processLine_eq, ih]
      simp [add_assoc]

/-- The overall status folds with `stepStatus` over the invoice lines. -/
theorem foldl_overall_status (po_items gr_items : List LineItem)
    (items : List LineItem) : ∀ st : MatchState,
    (items.foldl (processLine po_items gr_items) st).overall_status =
      items.foldl (stepStatus po_items gr_items) st.overall_status := by
  induction items with
  | nil => intro st; simp
  | cons it rest ih =>
      intro st
      rw [List.foldl_cons, processLine_eq, ih]
      simp

/-! ## Status escalation -/

/-- "fail" is absorbing for one iteration's status update. -/
theorem stepStatus_fail (po_items gr_items : List LineItem) (it : LineItem) :
    stepStatus po_items gr_items "fail" it = "fail" := by
  unfold stepStatus
  cases findMatch it.description po_items <;> cases findMatch it.description gr_items
  · rfl
  · rfl
  · rfl
  · simp [escalateStatus]

/-- A line without both matches sets the overall status to "fail". -/
theorem stepStatus_noMatch (po_items gr_items : List LineItem) (it : LineItem)
    (s : String) (h : isNoMatchLine po_items gr_items it = true) :
    stepStatus po_items gr_items s it = "fail" := by
  unfold stepStatus
  unfold isNoMatchLine at h
  cases hpo : findMatch it.description po_items <;>
    cases hgr : findMatch it.description gr_items <;> simp [hpo, hgr] at h ⊢

/-- Escalating `statusOfTrips t` yields `statusOfTrips (t + 1)`. -/
theorem escalateStatus_statusOfTrips (t : Nat) :
    escalateStatus (statusOfTrips t) = statusOfTrips (t + 1) := by
  match t with
  | 0 => rfl
  | 1 => rfl
  | (k+2) =>
      unfold statusOfTrips escalateStatus
      simp

/-- A line with both matches escalates `statusOfTrips` by its number of
tripped tolerance checks. -/
theorem stepStatus_trips (po_items gr_items : List LineItem) (it : LineItem)
    (h : isNoMatchLine po_items gr_items it = false) (t : Nat) :
    stepStatus po_items gr_items (statusOfTrips t) it =
      statusOfTrips (t + lineTrips po_items gr_items it) := by
  unfold stepStatus lineTrips
  unfold isNoMatchLine at h
  cases hpo : findMatch it.description po_items with
  | none => rw [hpo] at h; simp at h
  | some pm =>
      cases hgr : findMatch it.description gr_items with
      | none => rw [hpo, hgr] at h; simp at h
      | some gm =>
          simp only [hpo, hgr]
          rcases Classical.em (price_diff_calc it.unit_price pm.unit_price > tolerance)
            with h1 | h1 <;>
            rcases Classical.em (qty_diff_calc it.quantity gm.quantity > tolerance)
            with h2 | h2
          · simp only [if_pos h1, if_pos h2, escalateStatus_statusOfTrips]
          · simp only [if_pos h1, if_neg h2, escalateStatus_statusOfTrips]
          · simp only [if_neg h1, if_pos h2, escalateStatus_statusOfTrips]
          · simp only [if_neg h1, if_neg h2]
            rfl

/-- Folding from "fail" stays "fail". -/
theorem foldl_stepStatus_fail (po_items gr_items : List LineItem)
    (items : List LineItem) :
    items.foldl (stepStatus po_items gr_items) "fail" = "fail" := by
  induction items with
  | nil => rfl
  | cons it rest ih => rw [List.foldl_cons, stepStatus_fail, ih]

/-- If some line lacks one of its matches, the final status is "fail"
whatever the start status. -/
theorem foldl_stepStatus_anyNoMatch (po_items gr_items : List LineItem)
    (items : List LineItem)
    (h : ∃ it ∈ items, isNoMatchLine po_items gr_items it = true) :
    ∀ s : String, items.foldl (stepStatus po_items gr_items) s = "fail" := by
  induction items with
  | nil => rcases h with ⟨it, hmem, _⟩; exact absurd hmem (List.not_mem_nil it)
  | cons hd rest ih =>
      intro s
      rw [List.foldl_cons]
      rcases h with ⟨it, hmem, hnm⟩
      rcases List.mem_cons.mp hmem with rfl | hmem
      · rw [stepStatus_noMatch po_items gr_items it s hnm]
        exact foldl_stepStatus_fail po_items gr_items rest
      · exact ih ⟨it, hmem, hnm⟩ _

/-- If every line has both matches, the final status counts the tripped
tolerance checks across all lines. -/
theorem foldl_stepStatus_trips (po_items gr_items : List LineItem)
    (items : List LineItem)
    (h : ∀ it ∈ items, isNoMatchLine po_items gr_items it = false) :
    ∀ t : Nat, items.foldl (stepStatus po_items gr_items) (statusOfTrips t) =
      statusOfTrips (t + (items.map (lineTrips po_items gr_items)).sum) := by
  induction items with
  | nil => intro t; simp [statusOfTrips]
  | cons hd rest ih =>
      intro t
      rw [List.foldl_cons, stepStatus_trips po_items gr_items hd
        (h hd (List.mem_cons_self hd rest)) t,
        ih (fun it hmem => h it (List.mem_cons_of_mem hd hmem))]
      simp [add_assoc]

/-- The overall status of a full run: "fail" as soon as some invoice line
lacks a PO or GR match, otherwise determined by the total number of
tripped tolerance checks. -/
theorem overall_status_char (inv : Invoice) (po : PurchaseOrder) (gr : GoodsReceipt) :
    (perform_three_way_match inv po gr).overall_status =
      if inv.line_items.any (isNoMatchLine po.line_items gr.line_items) then "fail"
      else statusOfTrips
        ((inv.line_items.map (lineTrips po.line_items gr.line_items)).sum) := by
  unfold perform_three_way_match
  dsimp only
  rw [foldl_overall_status]
  by_cases h : inv.line_items.any (isNoMatchLine po.line_items gr.line_items)
  · rw [if_pos h]
    rcases List.any_eq_true.mp h with ⟨it, hmem, hnm⟩
    exact foldl_stepStatus_anyNoMatch _ _ _ ⟨it, hmem, hnm⟩ _
  · rw [if_neg h]
    have hall : ∀ it ∈ inv.line_items,
        isNoMatchLine po.line_items gr.line_items it = false := by
      intro it hmem
      by_contra hne
      exact h (List.any_eq_true.mpr ⟨it, hmem, by simpa using hne⟩)
    have := foldl_stepStatus_trips po.line_items gr.line_items inv.line_items hall 0
    simpa [initState, statusOfTrips] using this

/-- The result's records are exactly the per-line records, in invoice
line order. -/
theorem line_item_matches_eq (inv : Invoice) (po : PurchaseOrder) (gr : GoodsReceipt) :
    (perform_three_way_match inv po gr).line_item_matches =
      inv.line_items.map (lineRecord po.line_items gr.line_items) := by
  unfold perform_three_way_match
  dsimp only
  rw [foldl_line_matches]
  simp [initState]

/-- The result's `total_variance` is the plain sum of the per-line
amount differences. -/
theorem total_variance_eq (inv : Invoice) (po : PurchaseOrder) (gr : GoodsReceipt) :
    (perform_three_way_match inv po gr).total_variance =
      (inv.line_items.map (lineAmountDiff po.line_items gr.line_items)).sum := by
  unfold perform_three_way_match
  dsimp only
  rw [foldl_total_variance]
  simp [initState]

/-- The result's `price_variance` is the plain sum of the per-line
price differences. -/
theorem price_variance_eq (inv : Invoice) (po : PurchaseOrder) (gr : GoodsReceipt) :
    (perform_three_way_match inv po gr).price_variance =
      (inv.line_items.map (linePriceDiff po.line_items gr.line_items)).sum := by
  unfold perform_three_way_match
  dsimp only
  rw [foldl_price_variance]
  simp [initState]

/-- The result's `quantity_variance` is the plain sum of the per-line
quantity differences. -/
theorem quantity_variance_eq (inv : Invoice) (po : PurchaseOrder) (gr : GoodsReceipt) :
    (perform_three_way_match inv po gr).quantity_variance =
      (inv.line_items.map (lineQtyDiff po.line_items gr.line_items)).sum := by
  unfold perform_three_way_match
  dsimp only
  rw [foldl_quantity_variance]
  simp [initState]

/-- Every per-line record carries its invoice line's description. -/
theorem lineRecord_description (po_items gr_items : List LineItem) (it : LineItem) :
    (lineRecord po_items gr_items it).description = it.description := by
  unfold lineRecord
  cases findMatch it.description po_items <;>
    cases findMatch it.description gr_items <;> rfl

/-- `statusOfTrips` only takes the three expected values. -/
theorem statusOfTrips_mem (t : Nat) :
    statusOfTrips t = "pass" ∨ statusOfTrips t = "warning" ∨ statusOfTrips t = "fail" := by
  unfold statusOfTrips
  split_ifs <;> simp

/-- `getD` through a `map`, at an index inside the list. -/
theorem getD_map_of_lt {α β : Type} (f : α → β) (l : List α) (i : Nat)
    (hi : i < l.length) (d : β) (d' : α) :
    (l.map f).getD i d = f (l.getD i d') := by
  rw [List.getD_eq_getElem?_getD, List.getD_eq_getElem?_getD, List.getElem?_map,
    List.getElem?_eq_getElem hi]
  rfl

/-- The `i`-th record of a run is the per-line record of the `i`-th
invoice line. -/
theorem record_getD (inv : Invoice) (po : PurchaseOrder) (gr : GoodsReceipt)
    (i : Nat) (hi : i < inv.line_items.length) :
    (perform_three_way_match inv po gr).line_item_matches.getD i emptyRecord =
      lineRecord po.line_items gr.line_items (inv.line_items.getD i emptyItem) := by
  rw [line_item_matches_eq]
  exact getD_map_of_lt _ _ i hi _ _

/-- The per-line record when both matches exist. -/
theorem lineRecord_of_matches (po_items gr_items : List LineItem) (it pm gm : LineItem)
    (hpo : findMatch it.description po_items = some pm)
    (hgr : findMatch it.description gr_items = some gm) :
    lineRecord po_items gr_items it =
      { description := it.description
        invoice_qty := it.quantity
        invoice_price := it.unit_price
        invoice_amount := it.amount
        po_qty := pm.quantity
        po_price := pm.unit_price
        gr_qty := gm.quantity
        price_variance_pct := price_diff_calc it.unit_price pm.unit_price * 100
        quantity_variance_pct := qty_diff_calc it.quantity gm.quantity * 100
        amount_variance := |it.amount - pm.unit_price * gm.quantity|
        status := if qty_diff_calc it.quantity gm.quantity > tolerance then "quantity_variance"
          else if price_diff_calc it.unit_price pm.unit_price > tolerance
          then "price_variance" else "pass" } := by
  unfold lineRecord
  simp only [hpo, hgr]

/-- The per-line record when the PO or the GR match is missing. -/
theorem lineRecord_of_noMatch (po_items gr_items : List LineItem) (it : LineItem)
    (h : findMatch it.description po_items = none ∨
      findMatch it.description gr_items = none) :
    (lineRecord po_items gr_items it).status = "no_match" ∧
    (lineRecord po_items gr_items it).price_variance_pct = 0 ∧
    (lineRecord po_items gr_items it).quantity_variance_pct = 0 ∧
    (lineRecord po_items gr_items it).amount_variance = 0 := by
  unfold lineRecord
  cases hpo : findMatch it.description po_items <;>
    cases hgr : findMatch it.description gr_items <;>
    simp_all

/-! ## Concrete documents for witnesses

Small inputs used to instantiate the theorems below at concrete values. -/

/-- A line item from its four fields. -/
def mkLine (d : String) (q p a : ℚ) : LineItem :=
  { description := d, quantity := q, unit_price := p, amount := a }

/-- An invoice with the given line items. -/
def mkInvoice (items : List LineItem) : Invoice :=
  { invoice_number := "INV-1", vendor_name := "Acme", invoice_date := "2024-01-01"
    total_amount := 0, line_items := items }

/-- A purchase order with the given line items. -/
def mkPO (items : List LineItem) : PurchaseOrder :=
  { po_number := "PO-1", vendor_name := "Acme", po_date := "2024-01-01"
    total_amount := 0, line_items := items }

/-- A goods receipt with the given line items. -/
def mkGR (items : List LineItem) : GoodsReceipt :=
  { gr_number := "GR-1", po_number := "PO-1", vendor_name := "Acme"
    receipt_date := "2024-01-02", line_items := items }

/-! ## Claims -/

/-- `findMatch` is `List.find?` of the lowercased-description predicate. -/
theorem findMatch_eq_find? (descr : String) (items : List LineItem) :
    findMatch descr items =
      items.find? (fun x => decide (pyLower x.description = pyLower descr)) := by
  induction items with
  | nil => rfl
  | cons hd rest ih =>
      by_cases h : pyLower hd.description = pyLower descr
      · rw [List.find?_cons_of_pos _ (by simpa using h)]
        unfold findMatch
        rw [if_pos h]
      · rw [List.find?_cons_of_neg _ (by simpa using h)]
        unfold findMatch
        rw [if_neg h]
        exact ih

/-- C5: the match used for a description is the first line item (in
stored order) whose lowercased description equals the lowercased target,
and it is `none` exactly when no line item's lowercased description
equals it; with duplicated descriptions only the first line is ever
returned. -/
theorem C5_first_match_semantics (descr : String) (items : List LineItem) :
    (findMatch descr items = none ↔
      ∀ x ∈ items, pyLower x.description ≠ pyLower descr) ∧
    (∀ pm : LineItem, findMatch descr items = some pm ↔
      (pyLower pm.description = pyLower descr ∧
        ∃ pre post, items = pre ++ pm :: post ∧
          ∀ y ∈ pre, pyLower y.description ≠ pyLower descr)) := by
  constructor
  · rw [findMatch_eq_find?, List.find?_eq_none]
    simp
  · intro pm
    rw [findMatch_eq_find?, List.find?_eq_some]
    simp

/-- C7: the three aggregate figures are plain unweighted sums of the
per-line amount, price and quantity differences over all invoice lines,
a no-match line contributing 0. -/
theorem C7_aggregate_sums (inv : Invoice) (po : PurchaseOrder) (gr : GoodsReceipt) :
    (perform_three_way_match inv po gr).total_variance =
      (inv.line_items.map (lineAmountDiff po.line_items gr.line_items)).sum ∧
    (perform_three_way_match inv po gr).price_variance =
      (inv.line_items.map (linePriceDiff po.line_items gr.line_items)).sum ∧
    (perform_three_way_match inv po gr).quantity_variance =
      (inv.line_items.map (lineQtyDiff po.line_items gr.line_items)).sum :=
  ⟨total_variance_eq inv po gr, price_variance_eq inv po gr,
    quantity_variance_eq inv po gr⟩

/-- C8: the overall status is one of "pass", "warning", "fail", and the
result holds exactly one match record per invoice line item, in invoice
order (the i-th record carries the i-th line's description). -/
theorem C8_result_invariants (inv : Invoice) (po : PurchaseOrder) (gr : GoodsReceipt) :
    ((perform_three_way_match inv po gr).overall_status = "pass" ∨
     (perform_three_way_match inv po gr).overall_status = "warning" ∨
     (perform_three_way_match inv po gr).overall_status = "fail") ∧
    (perform_three_way_match inv po gr).line_item_matches.length =
      inv.line_items.length ∧
    (perform_three_way_match inv po gr).line_item_matches.map
        (fun r => r.description) =
      inv.line_items.map (fun it => it.description) := by
  refine ⟨?_, ?_, ?_⟩
  · rw [overall_status_char]
    split_ifs
    · simp
    · exact statusOfTrips_mem _
  · rw [line_item_matches_eq, List.length_map]
  · rw [line_item_matches_eq, List.map_map]
    simp [Function.comp, lineRecord_description]

/-- C9: an invoice without line items passes vacuously: empty match
list, zero aggregates, overall status "pass". -/
theorem C9_empty_invoice (inv : Invoice) (po : PurchaseOrder) (gr : GoodsReceipt)
    (h : inv.line_items = []) :
    (perform_three_way_match inv po gr).overall_status = "pass" ∧
    (perform_three_way_match inv po gr).line_item_matches = [] ∧
    (perform_three_way_match inv po gr).total_variance = 0 ∧
    (perform_three_way_match inv po gr).price_variance = 0 ∧
    (perform_three_way_match inv po gr).quantity_variance = 0 := by
  unfold perform_three_way_match
  rw [h]
  simp [initState]

/-- Witness for C9 at a concrete empty invoice. -/
theorem C9_empty_invoice_witness :
    (mkInvoice []).line_items = [] ∧
    ((perform_three_way_match (mkInvoice []) (mkPO []) (mkGR [])).overall_status
        = "pass" ∧
      (perform_three_way_match (mkInvoice []) (mkPO []) (mkGR [])).line_item_matches
        = [] ∧
      (perform_three_way_match (mkInvoice []) (mkPO []) (mkGR [])).total_variance
        = 0 ∧
      (perform_three_way_match (mkInvoice []) (mkPO []) (mkGR [])).price_variance
        = 0 ∧
      (perform_three_way_match (mkInvoice []) (mkPO []) (mkGR [])).quantity_variance
        = 0) :=
  ⟨rfl, C9_empty_invoice (mkInvoice []) (mkPO []) (mkGR []) rfl⟩

/-- C1 (amended): the overall status is "fail" when some line lacks a
match; otherwise each tripped tolerance check escalates once, so the
status is "pass" with zero tripped checks across all lines, "warning"
with exactly one, and "fail" with two or more — a single line tripping
both the price and the quantity tolerance counts twice. -/
theorem C1_escalation_amended (inv : Invoice) (po : PurchaseOrder) (gr : GoodsReceipt) :
    (perform_three_way_match inv po gr).overall_status =
      if inv.line_items.any (isNoMatchLine po.line_items gr.line_items) then "fail"
      else if (inv.line_items.map (lineTrips po.line_items gr.line_items)).sum = 0
        then "pass"
      else if (inv.line_items.map (lineTrips po.line_items gr.line_items)).sum = 1
        then "warning"
      else "fail" := by
  rw [overall_status_char]
  rfl

/-- Invoice of the C1 counterexample: one line, price 2 and quantity 2. -/
def cexInvoice : Invoice := mkInvoice [mkLine "w" 2 2 4]

/-- Purchase order of the C1 counterexample: unit price 1. -/
def cexPO : PurchaseOrder := mkPO [mkLine "w" 2 1 2]

/-- Goods receipt of the C1 counterexample: quantity 1. -/
def cexGR : GoodsReceipt := mkGR [mkLine "w" 1 1 1]

/-- C1 (counterexample): an input with exactly one variant invoice line
and no no-match line for which the overall status is "fail", not the
"warning" the claim requires: the single line trips both the price and
the quantity tolerance, so it escalates twice. -/
theorem C1_escalation_counterexample :
    cexInvoice.line_items.countP
      (isVariantLine cexPO.line_items cexGR.line_items) = 1 ∧
    cexInvoice.line_items.all
      (fun it => !(isNoMatchLine cexPO.line_items cexGR.line_items it)) = true ∧
    (perform_three_way_match cexInvoice cexPO cexGR).overall_status ≠ "warning" ∧
    (perform_three_way_match cexInvoice cexPO cexGR).overall_status = "fail" := by
  have hpo : findMatch "w" cexPO.line_items = some (mkLine "w" 2 1 2) := by
    simp [cexPO, mkPO, mkLine, findMatch]
  have hgr : findMatch "w" cexGR.line_items = some (mkLine "w" 1 1 1) := by
    simp [cexGR, mkGR, mkLine, findMatch]
  have hpd : price_diff_calc 2 1 > tolerance := by
    unfold price_diff_calc tolerance
    norm_num
  have hqd : qty_diff_calc 2 1 > tolerance := by
    unfold qty_diff_calc tolerance
    norm_num
  have hvariant : isVariantLine cexPO.line_items cexGR.line_items (mkLine "w" 2 2 4)
      = true := by
    unfold isVariantLine
    simp only [mkLine, hpo, hgr]
    simp [hpd]
  have hnomatch : isNoMatchLine cexPO.line_items cexGR.line_items (mkLine "w" 2 2 4)
      = false := by
    unfold isNoMatchLine
    simp only [mkLine, hpo, hgr]
    rfl
  have htrips : lineTrips cexPO.line_items cexGR.line_items (mkLine "w" 2 2 4) = 2 := by
    unfold lineTrips
    simp only [mkLine, hpo, hgr]
    rw [if_pos hpd, if_pos hqd]
  refine ⟨?_, ?_, ?_, ?_⟩
  · simp [cexInvoice, mkInvoice, hvariant]
  · simp [cexInvoice, mkInvoice, hnomatch]
  · rw [overall_status_char]
    simp [cexInvoice, mkInvoice, hnomatch, htrips, statusOfTrips]
  · rw [overall_status_char]
    simp [cexInvoice, mkInvoice, hnomatch, htrips, statusOfTrips]

/-- C2: an invoice line with no case-insensitive description match in
the PO or in the GR yields a record with status "no_match" and all
variance figures 0, and forces the overall status to "fail" regardless
of the other lines. -/
theorem C2_no_match_forces_fail (inv : Invoice) (po : PurchaseOrder) (gr : GoodsReceipt)
    (i : Nat) (hi : i < inv.line_items.length)
    (h : findMatch (inv.line_items.getD i emptyItem).description po.line_items = none ∨
      findMatch (inv.line_items.getD i emptyItem).description gr.line_items = none) :
    ((perform_three_way_match inv po gr).line_item_matches.getD i emptyRecord).status
      = "no_match" ∧
    ((perform_three_way_match inv po gr).line_item_matches.getD i
      emptyRecord).price_variance_pct = 0 ∧
    ((perform_three_way_match inv po gr).line_item_matches.getD i
      emptyRecord).quantity_variance_pct = 0 ∧
    ((perform_three_way_match inv po gr).line_item_matches.getD i
      emptyRecord).amount_variance = 0 ∧
    (perform_three_way_match inv po gr).overall_status = "fail" := by
  have hrec := record_getD inv po gr i hi
  have hnm := lineRecord_of_noMatch po.line_items gr.line_items _ h
  refine ⟨?_, ?_, ?_, ?_, ?_⟩
  · rw [hrec]; exact hnm.1
  · rw [hrec]; exact hnm.2.1
  · rw [hrec]; exact hnm.2.2.1
  · rw [hrec]; exact hnm.2.2.2
  · rw [overall_status_char]
    have hmem : inv.line_items.getD i emptyItem ∈ inv.line_items := by
      rw [List.getD_eq_getElem?_getD, List.getElem?_eq_getElem hi]
      exact List.getElem_mem hi
    have hbool : isNoMatchLine po.line_items gr.line_items
        (inv.line_items.getD i emptyItem) = true := by
      unfold isNoMatchLine
      rcases h with h | h <;> rw [h] <;> simp
    rw [if_pos (List.any_eq_true.mpr ⟨_, hmem, hbool⟩)]

/-- Invoice whose line "m" matches nothing in the other documents. -/
def nmInvoice : Invoice := mkInvoice [mkLine "m" 1 1 1]

/-- Purchase order without a line "m". -/
def nmPO : PurchaseOrder := mkPO [mkLine "w" 1 1 1]

/-- Goods receipt without a line "m". -/
def nmGR : GoodsReceipt := mkGR [mkLine "w" 1 1 1]

/-- Witness for C2 at a concrete unmatched invoice line. -/
theorem C2_no_match_forces_fail_witness :
    (0 < nmInvoice.line_items.length ∧
      findMatch (nmInvoice.line_items.getD 0 emptyItem).description nmPO.line_items
        = none) ∧
    (((perform_three_way_match nmInvoice nmPO nmGR).line_item_matches.getD 0
        emptyRecord).status = "no_match" ∧
      ((perform_three_way_match nmInvoice nmPO nmGR).line_item_matches.getD 0
        emptyRecord).price_variance_pct = 0 ∧
      ((perform_three_way_match nmInvoice nmPO nmGR).line_item_matches.getD 0
        emptyRecord).quantity_variance_pct = 0 ∧
      ((perform_three_way_match nmInvoice nmPO nmGR).line_item_matches.getD 0
        emptyRecord).amount_variance = 0 ∧
      (perform_three_way_match nmInvoice nmPO nmGR).overall_status = "fail") := by
  have hlen : 0 < nmInvoice.line_items.length := by
    simp [nmInvoice, mkInvoice]
  have hnone : findMatch (nmInvoice.line_items.getD 0 emptyItem).description
      nmPO.line_items = none := by
    simp [nmInvoice, mkInvoice, nmPO, mkPO, mkLine, findMatch, pyLower]
  exact ⟨⟨hlen, hnone⟩,
    C2_no_match_forces_fail nmInvoice nmPO nmGR 0 hlen (Or.inl hnone)⟩

/-- C3: for a matched line the division guards make a zero PO unit
price yield a zero price variance and a zero GR quantity yield a zero
quantity variance, instead of a division by zero. -/
theorem C3_zero_division_guard (inv : Invoice) (po : PurchaseOrder) (gr : GoodsReceipt)
    (i : Nat) (pm gm : LineItem) (hi : i < inv.line_items.length)
    (hpo : findMatch (inv.line_items.getD i emptyItem).description po.line_items
      = some pm)
    (hgr : findMatch (inv.line_items.getD i emptyItem).description gr.line_items
      = some gm) :
    (pm.unit_price = 0 →
      ((perform_three_way_match inv po gr).line_item_matches.getD i
        emptyRecord).price_variance_pct = 0) ∧
    (gm.quantity = 0 →
      ((perform_three_way_match inv po gr).line_item_matches.getD i
        emptyRecord).quantity_variance_pct = 0) := by
  rw [record_getD inv po gr i hi,
    lineRecord_of_matches po.line_items gr.line_items _ pm gm hpo hgr]
  constructor
  · intro h0
    dsimp only
    unfold price_diff_calc
    rw [h0]
    simp
  · intro h0
    dsimp only
    unfold qty_diff_calc
    rw [h0]
    simp

/-- Invoice for the zero-denominator witnesses. -/
def zInvoice : Invoice := mkInvoice [mkLine "w" 1 1 1]

/-- Purchase order whose matched line has unit price 0. -/
def zPO : PurchaseOrder := mkPO [mkLine "w" 1 0 0]

/-- Goods receipt whose matched line has quantity 0. -/
def zGR : GoodsReceipt := mkGR [mkLine "w" 0 1 0]

/-- Witness for C3 at a concrete zero-price PO line and zero-quantity
GR line. -/
theorem C3_zero_division_guard_witness :
    (0 < zInvoice.line_items.length ∧
      findMatch (zInvoice.line_items.getD 0 emptyItem).description zPO.line_items
        = some (mkLine "w" 1 0 0) ∧
      findMatch (zInvoice.line_items.getD 0 emptyItem).description zGR.line_items
        = some (mkLine "w" 0 1 0)) ∧
    (((mkLine "w" 1 0 0).unit_price = 0 →
      ((perform_three_way_match zInvoice zPO zGR).line_item_matches.getD 0
        emptyRecord).price_variance_pct = 0) ∧
    ((mkLine "w" 0 1 0).quantity = 0 →
      ((perform_three_way_match zInvoice zPO zGR).line_item_matches.getD 0
        emptyRecord).quantity_variance_pct = 0)) := by
  have hlen : 0 < zInvoice.line_items.length := by
    simp [zInvoice, mkInvoice]
  have hpo : findMatch (zInvoice.line_items.getD 0 emptyItem).description
      zPO.line_items = some (mkLine "w" 1 0 0) := by
    simp [zInvoice, mkInvoice, zPO, mkPO, mkLine, findMatch]
  have hgr : findMatch (zInvoice.line_items.getD 0 emptyItem).description
      zGR.line_items = some (mkLine "w" 0 1 0) := by
    simp [zInvoice, mkInvoice, zGR, mkGR, mkLine, findMatch]
  exact ⟨⟨hlen, hpo, hgr⟩,
    C3_zero_division_guard zInvoice zPO zGR 0 (mkLine "w" 1 0 0) (mkLine "w" 0 1 0)
      hlen hpo hgr⟩

/-- C4: for a matched line the record's status is "quantity_variance"
whenever the quantity check trips (even if the price check also trips —
the quantity write wins), "price_variance" when only the price check
trips, and "pass" when neither does. -/
theorem C4_line_status_priority (inv : Invoice) (po : PurchaseOrder) (gr : GoodsReceipt)
    (i : Nat) (pm gm : LineItem) (hi : i < inv.line_items.length)
    (hpo : findMatch (inv.line_items.getD i emptyItem).description po.line_items
      = some pm)
    (hgr : findMatch (inv.line_items.getD i emptyItem).description gr.line_items
      = some gm) :
    ((perform_three_way_match inv po gr).line_item_matches.getD i emptyRecord).status =
      if qty_diff_calc (inv.line_items.getD i emptyItem).quantity gm.quantity
          > tolerance then "quantity_variance"
      else if price_diff_calc (inv.line_items.getD i emptyItem).unit_price pm.unit_price
          > tolerance then "price_variance"
      else "pass" := by
  rw [record_getD inv po gr i hi,
    lineRecord_of_matches po.line_items gr.line_items _ pm gm hpo hgr]

/-- Witness for C4 at a concrete matched line tripping both checks. -/
theorem C4_line_status_priority_witness :
    (0 < cexInvoice.line_items.length ∧
      findMatch (cexInvoice.line_items.getD 0 emptyItem).description cexPO.line_items
        = some (mkLine "w" 2 1 2) ∧
      findMatch (cexInvoice.line_items.getD 0 emptyItem).description cexGR.line_items
        = some (mkLine "w" 1 1 1)) ∧
    ((perform_three_way_match cexInvoice cexPO cexGR).line_item_matches.getD 0
        emptyRecord).status =
      (if qty_diff_calc (cexInvoice.line_items.getD 0 emptyItem).quantity
          (mkLine "w" 1 1 1).quantity > tolerance then "quantity_variance"
      else if price_diff_calc (cexInvoice.line_items.getD 0 emptyItem).unit_price
          (mkLine "w" 2 1 2).unit_price > tolerance then "price_variance"
      else "pass") := by
  have hlen : 0 < cexInvoice.line_items.length := by
    simp [cexInvoice, mkInvoice]
  have hpo : findMatch (cexInvoice.line_items.getD 0 emptyItem).description
      cexPO.line_items = some (mkLine "w" 2 1 2) := by
    simp [cexInvoice, mkInvoice, cexPO, mkPO, mkLine, findMatch]
  have hgr : findMatch (cexInvoice.line_items.getD 0 emptyItem).description
      cexGR.line_items = some (mkLine "w" 1 1 1) := by
    simp [cexInvoice, mkInvoice, cexGR, mkGR, mkLine, findMatch]
  exact ⟨⟨hlen, hpo, hgr⟩,
    C4_line_status_priority cexInvoice cexPO cexGR 0 (mkLine "w" 2 1 2)
      (mkLine "w" 1 1 1) hlen hpo hgr⟩

/-- C6: for a matched line the recorded amount variance is the absolute
dollar difference between the invoice line's amount and the PO unit
price times the GR quantity. -/
theorem C6_amount_variance_formula (inv : Invoice) (po : PurchaseOrder)
    (gr : GoodsReceipt) (i : Nat) (pm gm : LineItem) (hi : i < inv.line_items.length)
    (hpo : findMatch (inv.line_items.getD i emptyItem).description po.line_items
      = some pm)
    (hgr : findMatch (inv.line_items.getD i emptyItem).description gr.line_items
      = some gm) :
    ((perform_three_way_match inv po gr).line_item_matches.getD i
        emptyRecord).amount_variance =
      |(inv.line_items.getD i emptyItem).amount - pm.unit_price * gm.quantity| := by
  rw [record_getD inv po gr i hi,
    lineRecord_of_matches po.line_items gr.line_items _ pm gm hpo hgr]

/-- Witness for C6 at a concrete matched line. -/
theorem C6_amount_variance_formula_witness :
    (0 < zInvoice.line_items.length ∧
      findMatch (zInvoice.line_items.getD 0 emptyItem).description cexPO.line_items
        = some (mkLine "w" 2 1 2) ∧
      findMatch (zInvoice.line_items.getD 0 emptyItem).description cexGR.line_items
        = some (mkLine "w" 1 1 1)) ∧
    ((perform_three_way_match zInvoice cexPO cexGR).line_item_matches.getD 0
        emptyRecord).amount_variance =
      |(zInvoice.line_items.getD 0 emptyItem).amount -
        (mkLine "w" 2 1 2).unit_price * (mkLine "w" 1 1 1).quantity| := by
  have hlen : 0 < zInvoice.line_items.length := by
    simp [zInvoice, mkInvoice]
  have hpo : findMatch (zInvoice.line_items.getD 0 emptyItem).description
      cexPO.line_items = some (mkLine "w" 2 1 2) := by
    simp [zInvoice, mkInvoice, cexPO, mkPO, mkLine, findMatch]
  have hgr : findMatch (zInvoice.line_items.getD 0 emptyItem).description
      cexGR.line_items = some (mkLine "w" 1 1 1) := by
    simp [zInvoice, mkInvoice, cexGR, mkGR, mkLine, findMatch]
  exact ⟨⟨hlen, hpo, hgr⟩,
    C6_amount_variance_formula zInvoice cexPO cexGR 0 (mkLine "w" 2 1 2)
      (mkLine "w" 1 1 1) hlen hpo hgr⟩

/-- C10: the division guards are strict positivity tests: a matched PO
line with non-positive (including negative) unit price yields a zero
price variance, and a matched GR line with non-positive quantity yields
a zero quantity variance, with no division performed. -/
theorem C10_nonpositive_guard (inv : Invoice) (po : PurchaseOrder) (gr : GoodsReceipt)
    (i : Nat) (pm gm : LineItem) (hi : i < inv.line_items.length)
    (hpo : findMatch (inv.line_items.getD i emptyItem).description po.line_items
      = some pm)
    (hgr : findMatch (inv.line_items.getD i emptyItem).description gr.line_items
      = some gm) :
    (pm.unit_price ≤ 0 →
      ((perform_three_way_match inv po gr).line_item_matches.getD i
        emptyRecord).price_variance_pct = 0) ∧
    (gm.quantity ≤ 0 →
      ((perform_three_way_match inv po gr).line_item_matches.getD i
        emptyRecord).quantity_variance_pct = 0) := by
  rw [record_getD inv po gr i hi,
    lineRecord_of_matches po.line_items gr.line_items _ pm gm hpo hgr]
  constructor
  · intro h0
    dsimp only
    unfold price_diff_calc
    rw [if_neg (by exact not_lt.mpr h0)]
    simp
  · intro h0
    dsimp only
    unfold qty_diff_calc
    rw [if_neg (by exact not_lt.mpr h0)]
    simp

/-- Purchase order whose matched line has a negative unit price. -/
def negPO : PurchaseOrder := mkPO [mkLine "w" 1 (-1) 1]

/-- Goods receipt whose matched line has a negative quantity. -/
def negGR : GoodsReceipt := mkGR [mkLine "w" (-2) 1 1]

/-- Witness for C10 at a concrete negative PO price and negative GR
quantity. -/
theorem C10_nonpositive_guard_witness :
    (0 < zInvoice.line_items.length ∧
      findMatch (zInvoice.line_items.getD 0 emptyItem).description negPO.line_items
        = some (mkLine "w" 1 (-1) 1) ∧
      findMatch (zInvoice.line_items.getD 0 emptyItem).description negGR.line_items
        = some (mkLine "w" (-2) 1 1)) ∧
    (((mkLine "w" 1 (-1) 1).unit_price ≤ 0 →
      ((perform_three_way_match zInvoice negPO negGR).line_item_matches.getD 0
        emptyRecord).price_variance_pct = 0) ∧
    ((mkLine "w" (-2) 1 1).quantity ≤ 0 →
      ((perform_three_way_match zInvoice negPO negGR).line_item_matches.getD 0
        emptyRecord).quantity_variance_pct = 0)) := by
  have hlen : 0 < zInvoice.line_items.length := by
    simp [zInvoice, mkInvoice]
  have hpo : findMatch (zInvoice.line_items.getD 0 emptyItem).description
      negPO.line_items = some (mkLine "w" 1 (-1) 1) := by
    simp [zInvoice, mkInvoice, negPO, mkPO, mkLine, findMatch]
  have hgr : findMatch (zInvoice.line_items.getD 0 emptyItem).description
      negGR.line_items = some (mkLine "w" (-2) 1 1) := by
    simp [zInvoice, mkInvoice, negGR, mkGR, mkLine, findMatch]
  exact ⟨⟨hlen, hpo, hgr⟩,
    C10_nonpositive_guard zInvoice negPO negGR 0 (mkLine "w" 1 (-1) 1)
      (mkLine "w" (-2) 1 1) hlen hpo hgr⟩
